import Mathlib

/-!
Shallow embedding of `bot.py`, a Flask mock-interview application.

The embedded state is the module-level `SESSIONS` dict together with the
set of files present in the upload folder.  External collaborators (the
PDF text extractor and the three LLM chains) are passed in as oracle
functions returning `Except String String`: `.ok text` models a normal
return and `.error msg` models a raised exception.  Fresh UUIDs are
passed in as parameters.  Each route handler becomes a pure function
from the server state (plus request data and oracles) to the new server
state and the HTTP response.
-/

namespace InterviewBot

/-- One interview session, as stored in the `SESSIONS` dict of `bot.py`
(lines 79-84): the extracted resume text, the accumulated chat history
string, the current question number and the path of the saved PDF. -/
structure Session where
  resume_text : String
  chat_history : String
  question_num : Nat
  filepath : String
deriving Repr, DecidableEq

/-- The `SESSIONS` dict: a mapping from session id to session. -/
def Sessions : Type := String → Option Session

/-- `SESSIONS[key] = v` (dict assignment). -/
def setS (m : Sessions) (key : String) (v : Session) : Sessions :=
  fun k => if k = key then some v else m k

/-- `SESSIONS.pop(key, None)` (dict removal, no error if absent). -/
def eraseS (m : Sessions) (key : String) : Sessions :=
  fun k => if k = key then none else m k

/-- Whole-server state: the `SESSIONS` dict and the files currently
present in the upload folder. -/
structure ServerState where
  sessions : Sessions
  files : List String

/-- Constant `UPLOAD_FOLDER` from `bot.py` line 14. -/
def UPLOAD_FOLDER : String := "uploads"

/-- The history entry `f"Q{n}: {text}\n"` appended for a question
(`bot.py` lines 81 and 117). -/
def entryQ (n : Nat) (text : String) : String :=
  "Q" ++ toString n ++ ": " ++ text ++ "\n"

/-- The history entry `f"A{n}: {text}\n"` appended for an answer
(`bot.py` line 107). -/
def entryA (n : Nat) (text : String) : String :=
  "A" ++ toString n ++ ": " ++ text ++ "\n"

/-- Response of the `/upload` route: either `jsonify({"error": msg}), code`
or the rendered question page carrying the question text, the question
number and the session id. -/
inductive UploadResp where
  | err (code : Nat) (msg : String)
  | questionPage (question : String) (question_num : Nat) (session_id : String)
deriving Repr, DecidableEq

/-- Response of the `/answer` route: a JSON error, the rendered question
page, the rendered assessment page, or an uncaught exception propagating
out of the handler (the LLM chain call raised). -/
inductive AnswerResp where
  | err (code : Nat) (msg : String)
  | questionPage (question : String) (question_num : Nat) (session_id : String)
  | assessmentPage (assessment : String)
  | raised (e : String)
deriving Repr, DecidableEq

/-- The `upload_resume` handler (`bot.py` lines 58-94).
`resumeFile` is `request.files['resume']` when present: filename and raw
content.  `fileUuidHex` and `sessionUuid` stand for the two freshly drawn
UUIDs.  `extract` is the `PyPDFLoader` load plus page-text join applied
to the file content; `genFirst` is `first_question_chain.run`. -/
def upload_resume (st : ServerState) (resumeFile : Option (String × String))
    (fileUuidHex : String) (sessionUuid : String)
    (extract : String → Except String String)
    (genFirst : String → Except String String) :
    ServerState × UploadResp :=
  match resumeFile with
  | none => (st, .err 400 "No file uploaded")
  | some (filename, content) =>
    if filename = "" then (st, .err 400 "Empty file selected")
    else
      let filepath := UPLOAD_FOLDER ++ "/" ++ fileUuidHex ++ ".pdf"
      let st1 : ServerState := { st with files := filepath :: st.files }
      match extract content with
      | .error e => (st1, .err 500 e)
      | .ok resume_text =>
        match genFirst resume_text with
        | .error e => (st1, .err 500 e)
        | .ok first_question =>
          let sess : Session :=
            { resume_text := resume_text
              chat_history := entryQ 1 first_question
              question_num := 1
              filepath := filepath }
          ({ st1 with sessions := setS st1.sessions sessionUuid sess },
           .questionPage first_question 1 sessionUuid)

/-- `f"{answer}"` where `answer = request.form.get('answer')`: Python
renders the value `None` of a missing field as the string `"None"`. -/
def formAnswerText : Option String → String
  | some a => a
  | none => "None"

/-- The `process_answer` handler (`bot.py` lines 96-144).
`answerField` and `sessionField` are `request.form.get('answer')` and
`request.form.get('session_id')` (`none` when the field is absent).
`genNext` is `next_question_chain.run (resume_text, chat_history)`;
`genAssess` is `assessment_chain.run (chat_history, resume_text)`;
`removeOk` tells whether `os.remove` succeeds (its failure is swallowed
by the bare `except: pass`). -/
def process_answer (st : ServerState) (answerField : Option String)
    (sessionField : Option String)
    (genNext : String → String → Except String String)
    (genAssess : String → String → Except String String)
    (removeOk : Bool) : ServerState × AnswerResp :=
  let answer := formAnswerText answerField
  match sessionField with
  | none => (st, .err 400 "Session expired")
  | some session_id =>
    match st.sessions session_id with
    | none => (st, .err 400 "Session expired")
    | some session =>
      let current_q := session.question_num
      let hist1 := session.chat_history ++ entryA current_q answer
      let st1 : ServerState :=
        { st with sessions := setS st.sessions session_id
                    { session with chat_history := hist1 } }
      if current_q < 5 then
        match genNext session.resume_text hist1 with
        | .error e => (st1, .raised e)
        | .ok next_q =>
          let newNum := current_q + 1
          let sess2 : Session :=
            { session with chat_history := hist1 ++ entryQ newNum next_q
                           question_num := newNum }
          ({ st1 with sessions := setS st1.sessions session_id sess2 },
           .questionPage next_q newNum session_id)
      else
        match genAssess hist1 session.resume_text with
        | .error e => (st1, .raised e)
        | .ok assessment =>
          let files2 :=
            if session.filepath ∈ st.files then
              (if removeOk then st.files.erase session.filepath else st.files)
            else st.files
          ({ sessions := eraseS st1.sessions session_id, files := files2 },
           .assessmentPage assessment)

/-- Lift a total oracle into the `Except` interface (a run in which every
LLM call returns normally). -/
def okF (f : String → String → String) : String → String → Except String String :=
  fun a b => Except.ok (f a b)

/-- Process a list of answers in sequence through `process_answer`,
collecting the responses. -/
def runAnswers (st : ServerState) (session_id : String) (answers : List String)
    (genNext genAssess : String → String → Except String String)
    (removeOk : Bool) : ServerState × List AnswerResp :=
  match answers with
  | [] => (st, [])
  | a :: rest =>
    let p := process_answer st (some a) (some session_id) genNext genAssess removeOk
    let r := runAnswers p.1 session_id rest genNext genAssess removeOk
    (r.1, p.2 :: r.2)

/-- The question number displayed by a response, when it is a question
page. -/
def respQNum : AnswerResp → Option Nat
  | .questionPage _ n _ => some n
  | _ => none

/-- Whether a response is the final assessment page. -/
def isAssessment : AnswerResp → Bool
  | .assessmentPage _ => true
  | _ => false

/-- The list `[k, k+1, ..., k+n-1]`. -/
def numsFrom (k : Nat) : Nat → List Nat
  | 0 => []
  | n + 1 => k :: numsFrom (k + 1) n

/-- Abstract view of one chat-history entry: a question or an answer,
with its index and text. -/
inductive QAEntry where
  | q (n : Nat) (text : String)
  | a (n : Nat) (text : String)
deriving Repr, DecidableEq

/-- Render one abstract entry to the concrete history segment. -/
def QAEntry.render : QAEntry → String
  | .q n t => entryQ n t
  | .a n t => entryA n t

/-- Render a list of entries to the concrete history string. -/
def renderAll (l : List QAEntry) : String :=
  l.foldr (fun e s => e.render ++ s) ""

/-- The abstract entry list `A k, Q (k+1), A (k+1), Q (k+2), ...` built
from a list of answers and a list of generated questions. -/
def qaEntries (k : Nat) : List String → List String → List QAEntry
  | [], _ => []
  | a :: as, t :: ts => .a k a :: .q (k + 1) t :: qaEntries (k + 1) as ts
  | _ :: _, [] => []

/-- Whether an entry is a question entry. -/
def isQ : QAEntry → Bool
  | .q _ _ => true
  | .a _ _ => false

/-- Whether an entry is an answer entry. -/
def isA : QAEntry → Bool
  | .q _ _ => false
  | .a _ _ => true

mutual

/-- `altQ k l`: the entry list `l` strictly alternates starting with
question `k`, then answer `k`, then question `k+1`, ... -/
def altQ : Nat → List QAEntry → Bool
  | _, [] => true
  | k, .q n _ :: rest => n == k && altA k rest
  | _, .a _ _ :: _ => false

/-- `altA k l`: the entry list `l` strictly alternates starting with
answer `k`, then question `k+1`, then answer `k+1`, ... -/
def altA : Nat → List QAEntry → Bool
  | _, [] => true
  | k, .a n _ :: rest => n == k && altQ (k + 1) rest
  | _, .q _ _ :: _ => false

end

/-- Helper for `countTaggedLines`: walk the characters, carrying whether
the walk is at the start of a line, and count the lines whose first
character is `tag`. -/
def countTaggedAux (tag : Char) : List Char → Bool → Nat
  | [], _ => 0
  | c :: rest, atStart =>
    (if atStart && c == tag then 1 else 0) + countTaggedAux tag rest (c == '\n')

/-- Number of lines of a history string that start with the character
`tag`: the literal-minded count of `"Q"`- or `"A"`-prefixed entries of a
chat history. -/
def countTaggedLines (tag : Char) (h : String) : Nat :=
  countTaggedAux tag h.data true

/-! ### Basic lemmas about the session store -/

theorem setS_self (m : Sessions) (k : String) (v : Session) : setS m k v k = some v := by
  simp [setS]

theorem setS_ne (m : Sessions) (k k' : String) (v : Session) (h : k' ≠ k) :
    setS m k v k' = m k' := by
  simp [setS, h]

theorem eraseS_self (m : Sessions) (k : String) : eraseS m k k = none := by
  simp [eraseS]

theorem eraseS_ne (m : Sessions) (k k' : String) (h : k' ≠ k) : eraseS m k k' = m k' := by
  simp [eraseS, h]

theorem setS_setS (m : Sessions) (k : String) (v w : Session) :
    setS (setS m k v) k w = setS m k w := by
  funext k'
  by_cases h : k' = k <;> simp [setS, h]

theorem eraseS_setS (m : Sessions) (k : String) (v : Session) :
    eraseS (setS m k v) k = eraseS m k := by
  funext k'
  by_cases h : k' = k <;> simp [eraseS, setS, h]

theorem setS_found {m : Sessions} {k : String} {v w : Session}
    (h : setS m k v k = some w) : w = v := by
  rw [setS_self] at h
  exact (Option.some.inj h).symm

theorem eraseS_found {m : Sessions} {k : String} {w : Session}
    (h : eraseS m k k = some w) : False := by
  rw [eraseS_self] at h
  cases h

/-! ### Step lemmas: the four ways `process_answer` can run on a found
session, plus the two not-found cases -/

theorem step_noField (st : ServerState) (a : Option String)
    (gN gA : String → String → Except String String) (rm : Bool) :
    process_answer st a none gN gA rm = (st, .err 400 "Session expired") := rfl

theorem step_notFound (st : ServerState) (a : Option String) (sid : String)
    (gN gA : String → String → Except String String) (rm : Bool)
    (hs : st.sessions sid = none) :
    process_answer st a (some sid) gN gA rm = (st, .err 400 "Session expired") := by
  simp [process_answer, hs]

theorem step_next_ok (st : ServerState) (a : Option String) (sid : String) (s : Session)
    (gN gA : String → String → Except String String) (rm : Bool) (t : String)
    (hs : st.sessions sid = some s) (hlt : s.question_num < 5)
    (hg : gN s.resume_text (s.chat_history ++ entryA s.question_num (formAnswerText a)) =
            Except.ok t) :
    process_answer st a (some sid) gN gA rm =
      ({ st with
          sessions := setS st.sessions sid
            { s with
                chat_history := s.chat_history ++ entryA s.question_num (formAnswerText a)
                  ++ entryQ (s.question_num + 1) t
                question_num := s.question_num + 1 } },
       .questionPage t (s.question_num + 1) sid) := by
  simp only [process_answer, hs, hg, if_pos hlt, setS_setS]

theorem step_next_err (st : ServerState) (a : Option String) (sid : String) (s : Session)
    (gN gA : String → String → Except String String) (rm : Bool) (e : String)
    (hs : st.sessions sid = some s) (hlt : s.question_num < 5)
    (hg : gN s.resume_text (s.chat_history ++ entryA s.question_num (formAnswerText a)) =
            Except.error e) :
    process_answer st a (some sid) gN gA rm =
      ({ st with
          sessions := setS st.sessions sid
            { s with
                chat_history := s.chat_history ++ entryA s.question_num (formAnswerText a) } },
       .raised e) := by
  simp only [process_answer, hs, hg, if_pos hlt]

theorem step_final_ok (st : ServerState) (a : Option String) (sid : String) (s : Session)
    (gN gA : String → String → Except String String) (rm : Bool) (t : String)
    (hs : st.sessions sid = some s) (h5 : ¬ s.question_num < 5)
    (hg : gA (s.chat_history ++ entryA s.question_num (formAnswerText a)) s.resume_text =
            Except.ok t) :
    process_answer st a (some sid) gN gA rm =
      ({ sessions := eraseS st.sessions sid,
         files := if s.filepath ∈ st.files then
             (if rm then st.files.erase s.filepath else st.files)
           else st.files },
       .assessmentPage t) := by
  simp only [process_answer, hs, hg, if_neg h5, eraseS_setS]

theorem step_final_err (st : ServerState) (a : Option String) (sid : String) (s : Session)
    (gN gA : String → String → Except String String) (rm : Bool) (e : String)
    (hs : st.sessions sid = some s) (h5 : ¬ s.question_num < 5)
    (hg : gA (s.chat_history ++ entryA s.question_num (formAnswerText a)) s.resume_text =
            Except.error e) :
    process_answer st a (some sid) gN gA rm =
      ({ st with
          sessions := setS st.sessions sid
            { s with
                chat_history := s.chat_history ++ entryA s.question_num (formAnswerText a) } },
       .raised e) := by
  simp only [process_answer, hs, hg, if_neg h5]

theorem step_next_ok_fst (st : ServerState) (a : Option String) (sid : String) (s : Session)
    (gN gA : String → String → Except String String) (rm : Bool) (t : String)
    (hs : st.sessions sid = some s) (hlt : s.question_num < 5)
    (hg : gN s.resume_text (s.chat_history ++ entryA s.question_num (formAnswerText a)) =
            Except.ok t) :
    (process_answer st a (some sid) gN gA rm).1 =
      { st with
          sessions := setS st.sessions sid
            { s with
                chat_history := s.chat_history ++ entryA s.question_num (formAnswerText a)
                  ++ entryQ (s.question_num + 1) t
                question_num := s.question_num + 1 } } := by
  rw [step_next_ok st a sid s gN gA rm t hs hlt hg]

theorem step_next_ok_snd (st : ServerState) (a : Option String) (sid : String) (s : Session)
    (gN gA : String → String → Except String String) (rm : Bool) (t : String)
    (hs : st.sessions sid = some s) (hlt : s.question_num < 5)
    (hg : gN s.resume_text (s.chat_history ++ entryA s.question_num (formAnswerText a)) =
            Except.ok t) :
    (process_answer st a (some sid) gN gA rm).2 =
      .questionPage t (s.question_num + 1) sid := by
  rw [step_next_ok st a sid s gN gA rm t hs hlt hg]

theorem step_final_ok_snd (st : ServerState) (a : Option String) (sid : String) (s : Session)
    (gN gA : String → String → Except String String) (rm : Bool) (t : String)
    (hs : st.sessions sid = some s) (h5 : ¬ s.question_num < 5)
    (hg : gA (s.chat_history ++ entryA s.question_num (formAnswerText a)) s.resume_text =
            Except.ok t) :
    (process_answer st a (some sid) gN gA rm).2 = .assessmentPage t := by
  rw [step_final_ok st a sid s gN gA rm t hs h5 hg]

/-! ### Concrete fixtures used by witness and counterexample theorems -/

/-- Fixture: empty server state. -/
def st0 : ServerState := { sessions := fun _ => none, files := [] }

/-- Fixture: a freshly created session, waiting for answer 1. -/
def sessW : Session :=
  { resume_text := "resume text", chat_history := "Q1: q1\n",
    question_num := 1, filepath := "uploads/f.pdf" }

/-- Fixture: a session waiting for answer 5. -/
def sessW5 : Session :=
  { resume_text := "resume text",
    chat_history :=
      "Q1: q1\nA1: a1\nQ2: q2\nA2: a2\nQ3: q3\nA3: a3\nQ4: q4\nA4: a4\nQ5: q5\n",
    question_num := 5, filepath := "uploads/f.pdf" }

/-- Fixture: a server holding exactly `sessW` under id `"sid"`. -/
def stW : ServerState :=
  { sessions := setS (fun _ => none) "sid" sessW, files := ["uploads/f.pdf"] }

/-- Fixture: a server holding exactly `sessW5` under id `"sid"`. -/
def stW5 : ServerState :=
  { sessions := setS (fun _ => none) "sid" sessW5, files := ["uploads/f.pdf"] }

/-- Fixture: a PDF extractor that fails. -/
def exBad : String → Except String String := fun _ => Except.error "bad pdf"

/-- Fixture: a PDF extractor that returns fixed text. -/
def exOk : String → Except String String := fun _ => Except.ok "resume text"

/-- Fixture: a first-question chain that returns a fixed question. -/
def gen1Ok : String → Except String String := fun _ => Except.ok "q1"

/-- Fixture: a next-question chain that returns a fixed question. -/
def genNOk : String → String → Except String String := fun _ _ => Except.ok "next q"

/-- Fixture: a next-question chain that raises. -/
def genNBad : String → String → Except String String := fun _ _ => Except.error "llm down"

/-- Fixture: an assessment chain that returns fixed text. -/
def genAOk : String → String → Except String String := fun _ _ => Except.ok "verdict"

/-- Fixture: an assessment chain that raises. -/
def genABad : String → String → Except String String := fun _ _ => Except.error "llm down"

/-! ### Claim theorems -/

/-- C6: submitting `/answer` with a session id absent from the store
returns the 400 "Session expired" error and leaves the whole server
state unchanged — no session is created or mutated. -/
theorem C6_unknown_session_expired (st : ServerState) (a : Option String) (sid : String)
    (gN gA : String → String → Except String String) (rm : Bool)
    (hs : st.sessions sid = none) :
    process_answer st a (some sid) gN gA rm = (st, .err 400 "Session expired") :=
  step_notFound st a sid gN gA rm hs

/-- Witness for C6: the id `"other"` is not in the one-session fixture
store, and the call leaves the state untouched. -/
theorem C6_unknown_session_expired_witness :
    stW.sessions "other" = none ∧
      process_answer stW (some "a") (some "other") genNOk genAOk true =
        (stW, .err 400 "Session expired") :=
  ⟨by decide,
   C6_unknown_session_expired stW (some "a") "other" genNOk genAOk true (by decide)⟩

/-- C7: `/upload` with no `resume` field returns `400 "No file uploaded"`,
and with an empty filename returns `400 "Empty file selected"`; in both
cases the server state is returned unchanged, and the result holds for
arbitrary extraction and generation oracles — neither is invoked. -/
theorem C7_upload_field_validation (st : ServerState) (fh sh : String)
    (ex gf : String → Except String String) (content : String) :
    upload_resume st none fh sh ex gf = (st, .err 400 "No file uploaded") ∧
      upload_resume st (some ("", content)) fh sh ex gf =
        (st, .err 400 "Empty file selected") :=
  ⟨rfl, by simp [upload_resume]⟩

/-- C10: a `/answer` request with no `answer` field is not rejected: it is
processed exactly like one whose answer text is the literal string
`"None"` (Python renders the value `None` this way), so the entry
appended for question 1 is `"A1: None\n"` and processing continues as
for any other answer. -/
theorem C10_missing_answer_becomes_None (st : ServerState) (sf : Option String)
    (gN gA : String → String → Except String String) (rm : Bool) :
    process_answer st none sf gN gA rm = process_answer st (some "None") sf gN gA rm ∧
      formAnswerText none = "None" ∧ entryA 1 (formAnswerText none) = "A1: None\n" :=
  ⟨rfl, rfl, by decide⟩

/-- C4: `StartInterview` fails atomically: whenever `upload_resume`
returns an error response (missing field, empty filename, extraction
failure or first-question generation failure), the session store is
exactly the one from before the call — no session is created. -/
theorem C4_upload_fails_atomically (st : ServerState)
    (resumeFile : Option (String × String)) (fh sh : String)
    (ex gf : String → Except String String) (c : Nat) (m : String)
    (herr : (upload_resume st resumeFile fh sh ex gf).2 = .err c m) :
    (upload_resume st resumeFile fh sh ex gf).1.sessions = st.sessions := by
  rcases resumeFile with _ | ⟨fn, content⟩
  · rfl
  · by_cases hfn : fn = ""
    · simp [upload_resume, hfn]
    · rcases hex : ex content with e | rt
      · simp [upload_resume, hfn, hex]
      · rcases hgf : gf rt with e | q
        · simp [upload_resume, hfn, hex, hgf]
        · exact absurd herr (by simp [upload_resume, hfn, hex, hgf])

/-- Witness for C4: a failing extractor yields the 500 error and an
unchanged (empty) session store. -/
theorem C4_upload_fails_atomically_witness :
    (upload_resume st0 (some ("r.pdf", "bytes")) "f" "sid" exBad gen1Ok).2 =
        .err 500 "bad pdf" ∧
      (upload_resume st0 (some ("r.pdf", "bytes")) "f" "sid" exBad gen1Ok).1.sessions =
        st0.sessions :=
  ⟨by decide,
   C4_upload_fails_atomically st0 (some ("r.pdf", "bytes")) "f" "sid" exBad gen1Ok
     500 "bad pdf" (by decide)⟩

/-- C5: when question or assessment generation fails during
`SubmitAnswer` on an existing session, the exception propagates to the
caller (`raised`), and the stored session keeps the already-appended
answer entry: the history mutation is not rolled back. -/
theorem C5_generation_failure_keeps_answer (st : ServerState) (a : Option String)
    (sid : String) (s : Session) (gN gA : String → String → Except String String)
    (rm : Bool) (e : String) (hs : st.sessions sid = some s) :
    (s.question_num < 5 →
      gN s.resume_text (s.chat_history ++ entryA s.question_num (formAnswerText a)) =
        Except.error e →
      process_answer st a (some sid) gN gA rm =
        ({ st with
            sessions := setS st.sessions sid
              { s with
                  chat_history :=
                    s.chat_history ++ entryA s.question_num (formAnswerText a) } },
         .raised e)) ∧
    (¬ s.question_num < 5 →
      gA (s.chat_history ++ entryA s.question_num (formAnswerText a)) s.resume_text =
        Except.error e →
      process_answer st a (some sid) gN gA rm =
        ({ st with
            sessions := setS st.sessions sid
              { s with
                  chat_history :=
                    s.chat_history ++ entryA s.question_num (formAnswerText a) } },
         .raised e)) :=
  ⟨fun hlt hg => step_next_err st a sid s gN gA rm e hs hlt hg,
   fun h5 hg => step_final_err st a sid s gN gA rm e hs h5 hg⟩

/-- Witness for C5: the next-question chain fails on the fixture session
at question 1; the call raises and the stored history ends with the
appended `"A1: a1\n"`. -/
theorem C5_generation_failure_keeps_answer_witness :
    stW.sessions "sid" = some sessW ∧ sessW.question_num < 5 ∧
      process_answer stW (some "a1") (some "sid") genNBad genAOk true =
        ({ stW with
            sessions := setS stW.sessions "sid"
              { sessW with
                  chat_history :=
                    sessW.chat_history ++ entryA sessW.question_num (formAnswerText (some "a1")) } },
         .raised "llm down") :=
  ⟨by decide, by decide,
   (C5_generation_failure_keeps_answer stW (some "a1") "sid" sessW genNBad genAOk true
       "llm down" (by decide)).1 (by decide) rfl⟩

/-- C8: `SubmitAnswer` never changes `resume_text` or the backing-file
reference of the session it touches, never touches any other session,
leaves the file system alone on non-terminal steps, and on the terminal
step (assessment produced) removes the session and deletes its file. -/
theorem C8_submit_answer_frame (st : ServerState) (a : Option String) (sid : String)
    (s : Session) (gN gA : String → String → Except String String) (rm : Bool)
    (hs : st.sessions sid = some s) :
    (∀ s', (process_answer st a (some sid) gN gA rm).1.sessions sid = some s' →
        s'.resume_text = s.resume_text ∧ s'.filepath = s.filepath) ∧
    (∀ k, k ≠ sid → (process_answer st a (some sid) gN gA rm).1.sessions k = st.sessions k) ∧
    (s.question_num < 5 → (process_answer st a (some sid) gN gA rm).1.files = st.files) ∧
    (∀ t, (process_answer st a (some sid) gN gA rm).2 = .assessmentPage t →
        (process_answer st a (some sid) gN gA rm).1.sessions sid = none ∧
        (s.filepath ∈ st.files → rm = true →
          (process_answer st a (some sid) gN gA rm).1.files = st.files.erase s.filepath)) := by
  by_cases hlt : s.question_num < 5
  · rcases hg : gN s.resume_text (s.chat_history ++ entryA s.question_num (formAnswerText a))
      with e | t
    · rw [step_next_err st a sid s gN gA rm e hs hlt hg]
      refine ⟨?_, fun k hk => setS_ne st.sessions sid k _ hk, fun _ => rfl,
        fun t h => absurd h (by simp)⟩
      intro s' h
      rw [setS_found h]
      exact ⟨rfl, rfl⟩
    · rw [step_next_ok st a sid s gN gA rm t hs hlt hg]
      refine ⟨?_, fun k hk => setS_ne st.sessions sid k _ hk, fun _ => rfl,
        fun t' h => absurd h (by simp)⟩
      intro s' h
      rw [setS_found h]
      exact ⟨rfl, rfl⟩
  · rcases hg : gA (s.chat_history ++ entryA s.question_num (formAnswerText a)) s.resume_text
      with e | t
    · rw [step_final_err st a sid s gN gA rm e hs hlt hg]
      refine ⟨?_, fun k hk => setS_ne st.sessions sid k _ hk, fun h => absurd h hlt,
        fun t h => absurd h (by simp)⟩
      intro s' h
      rw [setS_found h]
      exact ⟨rfl, rfl⟩
    · rw [step_final_ok st a sid s gN gA rm t hs hlt hg]
      refine ⟨fun s' h => (eraseS_found h).elim,
        fun k hk => eraseS_ne st.sessions sid k hk, fun h => absurd h hlt, ?_⟩
      intro t' _
      refine ⟨eraseS_self .., ?_⟩
      intro hmem hrm
      simp [hmem, hrm]

/-- Witness for C8: the fixture session answers question 1 with a working
next-question chain; the stored session keeps its resume text and file
path and the file list is unchanged. -/
theorem C8_submit_answer_frame_witness :
    stW.sessions "sid" = some sessW ∧
      (process_answer stW (some "a1") (some "sid") genNOk genAOk true).1.files = stW.files :=
  ⟨by decide,
   (C8_submit_answer_frame stW (some "a1") "sid" sessW genNOk genAOk true
       (by decide)).2.2.1 (by decide)⟩

/-- C9: when assessment generation fails on the terminal step
(`question_num = 5`), the exception propagates, the session stays in the
store with the fifth answer appended, and the temporary file is not
deleted; a retry on the same session appends a second `"A5"` entry. -/
theorem C9_failed_assessment_keeps_session (st : ServerState) (sid : String) (s : Session)
    (a1 a2 : Option String) (e1 e2 : String)
    (gN gA : String → String → Except String String) (rm : Bool)
    (hs : st.sessions sid = some s) (h5 : s.question_num = 5)
    (hg1 : gA (s.chat_history ++ entryA 5 (formAnswerText a1)) s.resume_text =
             Except.error e1) :
    (process_answer st a1 (some sid) gN gA rm).2 = .raised e1 ∧
      (process_answer st a1 (some sid) gN gA rm).1.sessions sid =
        some { s with chat_history := s.chat_history ++ entryA 5 (formAnswerText a1) } ∧
      (process_answer st a1 (some sid) gN gA rm).1.files = st.files ∧
      (gA (s.chat_history ++ entryA 5 (formAnswerText a1) ++ entryA 5 (formAnswerText a2))
          s.resume_text = Except.error e2 →
        (process_answer (process_answer st a1 (some sid) gN gA rm).1 a2 (some sid)
            gN gA rm).1.sessions sid =
          some { s with
                  chat_history :=
                    s.chat_history ++ entryA 5 (formAnswerText a1)
                      ++ entryA 5 (formAnswerText a2) }) := by
  have h5' : ¬ s.question_num < 5 := by omega
  have hg1' : gA (s.chat_history ++ entryA s.question_num (formAnswerText a1))
      s.resume_text = Except.error e1 := by rw [h5]; exact hg1
  rw [step_final_err st a1 sid s gN gA rm e1 hs h5' hg1']
  refine ⟨rfl, ?_, rfl, ?_⟩
  · rw [← h5]
    exact setS_self ..
  · intro hg2
    have hfound :
        (({ st with
            sessions := setS st.sessions sid
              { s with
                  chat_history :=
                    s.chat_history ++ entryA s.question_num (formAnswerText a1) } },
          AnswerResp.raised e1) :
            ServerState × AnswerResp).1.sessions sid =
          some { s with
                  chat_history :=
                    s.chat_history ++ entryA s.question_num (formAnswerText a1) } :=
      setS_self ..
    have h5₁ : ¬ ({ s with
        chat_history :=
          s.chat_history ++ entryA s.question_num (formAnswerText a1) } :
          Session).question_num < 5 := h5'
    have hg2' : gA (({ s with
          chat_history :=
            s.chat_history ++ entryA s.question_num (formAnswerText a1) } :
            Session).chat_history ++
          entryA ({ s with
            chat_history :=
              s.chat_history ++ entryA s.question_num (formAnswerText a1) } :
              Session).question_num (formAnswerText a2))
        ({ s with
          chat_history :=
            s.chat_history ++ entryA s.question_num (formAnswerText a1) } :
            Session).resume_text = Except.error e2 := by
      show gA (s.chat_history ++ entryA s.question_num (formAnswerText a1) ++
          entryA s.question_num (formAnswerText a2)) s.resume_text = Except.error e2
      rw [h5]
      exact hg2
    rw [step_final_err _ a2 sid _ gN gA rm e2 hfound h5₁ hg2']
    rw [← h5]
    exact setS_self _ _ _

/-- Witness for C9: the assessment chain fails on the fixture session at
question 5; the call raises and the file list is unchanged. -/
theorem C9_failed_assessment_keeps_session_witness :
    stW5.sessions "sid" = some sessW5 ∧
      (process_answer stW5 (some "a5") (some "sid") genNOk genABad true).2 =
        .raised "llm down" ∧
      (process_answer stW5 (some "a5") (some "sid") genNOk genABad true).1.files =
        stW5.files :=
  ⟨by decide,
   (C9_failed_assessment_keeps_session stW5 "sid" sessW5 (some "a5") (some "a5b")
       "llm down" "llm down" genNOk genABad true (by decide) (by decide) rfl).1,
   (C9_failed_assessment_keeps_session stW5 "sid" sessW5 (some "a5") (some "a5b")
       "llm down" "llm down" genNOk genABad true (by decide) (by decide) rfl).2.2.1⟩

/-- C2: a session is removed from the store exactly at the moment the
fifth answer is processed and the assessment produced: on any earlier
answer the session remains stored, on the terminal step it is removed,
and a subsequent `SubmitAnswer` with the same id gets the
session-expired error with the state unchanged — it cannot be removed
twice. -/
theorem C2_removed_exactly_on_fifth (st : ServerState) (sid : String) (s : Session)
    (a a2 : Option String) (gN gA : String → String → Except String String) (rm : Bool)
    (hs : st.sessions sid = some s) :
    (s.question_num < 5 →
      ∃ s', (process_answer st a (some sid) gN gA rm).1.sessions sid = some s') ∧
    (∀ t, s.question_num = 5 →
      gA (s.chat_history ++ entryA 5 (formAnswerText a)) s.resume_text = Except.ok t →
      (process_answer st a (some sid) gN gA rm).2 = .assessmentPage t ∧
        (process_answer st a (some sid) gN gA rm).1.sessions sid = none ∧
        process_answer (process_answer st a (some sid) gN gA rm).1 a2 (some sid) gN gA rm =
          ((process_answer st a (some sid) gN gA rm).1, .err 400 "Session expired")) := by
  constructor
  · intro hlt
    rcases hg : gN s.resume_text (s.chat_history ++ entryA s.question_num (formAnswerText a))
      with e | t
    · rw [step_next_err st a sid s gN gA rm e hs hlt hg]
      exact ⟨_, setS_self _ _ _⟩
    · rw [step_next_ok st a sid s gN gA rm t hs hlt hg]
      exact ⟨_, setS_self _ _ _⟩
  · intro t h5 hg
    have h5' : ¬ s.question_num < 5 := by omega
    have hg' : gA (s.chat_history ++ entryA s.question_num (formAnswerText a))
        s.resume_text = Except.ok t := by rw [h5]; exact hg
    rw [step_final_ok st a sid s gN gA rm t hs h5' hg']
    exact ⟨rfl, eraseS_self _ _, step_notFound _ a2 sid gN gA rm (eraseS_self _ _)⟩

/-- Witness for C2: the fifth answer on the fixture session produces the
assessment and removes the session. -/
theorem C2_removed_exactly_on_fifth_witness :
    stW5.sessions "sid" = some sessW5 ∧ sessW5.question_num = 5 ∧
      (process_answer stW5 (some "a5") (some "sid") genNOk genAOk true).2 =
        .assessmentPage "verdict" ∧
      (process_answer stW5 (some "a5") (some "sid") genNOk genAOk true).1.sessions "sid" =
        none :=
  ⟨by decide, by decide,
   ((C2_removed_exactly_on_fifth stW5 "sid" sessW5 (some "a5") (some "x") genNOk genAOk
       true (by decide)).2 "verdict" (by decide) rfl).1,
   ((C2_removed_exactly_on_fifth stW5 "sid" sessW5 (some "a5") (some "x") genNOk genAOk
       true (by decide)).2 "verdict" (by decide) rfl).2.1⟩

/-! ### Lemmas about multi-step runs -/

theorem renderAll_cons (e : QAEntry) (l : List QAEntry) :
    renderAll (e :: l) = e.render ++ renderAll l := rfl

theorem formAnswerText_some (a : String) : formAnswerText (some a) = a := rfl

theorem runAnswers_singleton (st : ServerState) (sid : String) (a : String)
    (gN gA : String → String → Except String String) (rm : Bool) :
    runAnswers st sid [a] gN gA rm =
      ((process_answer st (some a) (some sid) gN gA rm).1,
       [(process_answer st (some a) (some sid) gN gA rm).2]) := rfl

theorem runAnswers_append (st : ServerState) (sid : String) (xs ys : List String)
    (gN gA : String → String → Except String String) (rm : Bool) :
    runAnswers st sid (xs ++ ys) gN gA rm =
      ((runAnswers (runAnswers st sid xs gN gA rm).1 sid ys gN gA rm).1,
       (runAnswers st sid xs gN gA rm).2 ++
         (runAnswers (runAnswers st sid xs gN gA rm).1 sid ys gN gA rm).2) := by
  induction xs generalizing st with
  | nil => simp only [List.nil_append, runAnswers]
  | cons x xs ih => simp only [List.cons_append, runAnswers, List.append_eq, ih]

/-- Characterization of a run of answers in which every LLM call
succeeds, starting at question `k` and never reaching the terminal step:
each step appends the answer and the generated next question, increments
the counter, leaves the files alone, and returns the question numbers
`k+1, k+2, ...`. -/
theorem runAnswers_ok (gN gA : String → String → String) (rm : Bool) :
    ∀ (answers : List String) (k : Nat) (st : ServerState) (sid : String) (s : Session),
      st.sessions sid = some s → s.question_num = k → k + answers.length ≤ 5 →
      ∃ ts : List String, ts.length = answers.length ∧
        (runAnswers st sid answers (okF gN) (okF gA) rm).1.sessions sid =
          some { resume_text := s.resume_text,
                 chat_history := s.chat_history ++ renderAll (qaEntries k answers ts),
                 question_num := k + answers.length,
                 filepath := s.filepath } ∧
        (runAnswers st sid answers (okF gN) (okF gA) rm).1.files = st.files ∧
        (runAnswers st sid answers (okF gN) (okF gA) rm).2.map respQNum =
          (numsFrom (k + 1) answers.length).map some := by
  intro answers
  induction answers with
  | nil =>
    intro k st sid s hs hq _
    refine ⟨[], rfl, ?_, rfl, rfl⟩
    subst hq
    cases s
    simp only [runAnswers, hs, qaEntries, renderAll, List.foldr_nil, List.length_nil,
      Nat.add_zero, String.append_empty]
  | cons a rest ih =>
    intro k st sid s hs hq hlen
    have hlen' : k + rest.length + 1 ≤ 5 := by
      simp only [List.length_cons] at hlen
      omega
    have hlt : s.question_num < 5 := by omega
    simp only [runAnswers]
    rw [step_next_ok_fst st (some a) sid s (okF gN) (okF gA) rm
        (gN s.resume_text (s.chat_history ++ entryA s.question_num (formAnswerText (some a))))
        hs hlt rfl,
      step_next_ok_snd st (some a) sid s (okF gN) (okF gA) rm
        (gN s.resume_text (s.chat_history ++ entryA s.question_num (formAnswerText (some a))))
        hs hlt rfl]
    obtain ⟨ts, hts, hsess, hfiles, hmap⟩ :=
      ih (k + 1)
        { st with
            sessions := setS st.sessions sid
              { s with
                  chat_history := s.chat_history ++ entryA s.question_num (formAnswerText (some a))
                    ++ entryQ (s.question_num + 1)
                      (gN s.resume_text
                        (s.chat_history ++ entryA s.question_num (formAnswerText (some a))))
                  question_num := s.question_num + 1 } }
        sid
        { s with
            chat_history := s.chat_history ++ entryA s.question_num (formAnswerText (some a))
              ++ entryQ (s.question_num + 1)
                (gN s.resume_text (s.chat_history ++ entryA s.question_num (formAnswerText (some a))))
            question_num := s.question_num + 1 }
        (setS_self _ _ _)
        (by show s.question_num + 1 = k + 1; rw [hq]) (by omega)
    refine ⟨gN s.resume_text (s.chat_history ++ entryA s.question_num (formAnswerText (some a)))
      :: ts, by simp only [List.length_cons, hts], ?_, ?_, ?_⟩
    · rw [hsess]
      congr 1
      congr 1
      · show s.chat_history ++ entryA s.question_num (formAnswerText (some a))
            ++ entryQ (s.question_num + 1)
              (gN s.resume_text (s.chat_history ++ entryA s.question_num (formAnswerText (some a))))
            ++ renderAll (qaEntries (k + 1) rest ts) =
          s.chat_history ++ renderAll (qaEntries k (a :: rest)
            (gN s.resume_text (s.chat_history ++ entryA s.question_num (formAnswerText (some a)))
              :: ts))
        rw [hq]
        simp only [qaEntries, renderAll_cons, QAEntry.render, String.append_assoc,
          formAnswerText_some]
      · show k + 1 + rest.length = k + (a :: rest).length
        simp only [List.length_cons]
        omega
    · rw [hfiles]
    · simp only [List.map_cons]
      rw [hmap]
      simp only [respQNum, numsFrom, List.map_cons, hq]

theorem isAssessment_of_respQNum :
    ∀ (l : List AnswerResp) (ns : List Nat), l.map respQNum = ns.map some →
      l.map isAssessment = ns.map (fun _ => false) := by
  intro l
  induction l with
  | nil =>
    intro ns h
    cases ns with
    | nil => rfl
    | cons n ns => simp at h
  | cons r l ih =>
    intro ns h
    cases ns with
    | nil => simp at h
    | cons n ns =>
      simp only [List.map_cons, List.cons.injEq] at h
      rw [List.map_cons, List.map_cons, ih ns h.2]
      cases r with
      | questionPage q m sid => rfl
      | err c m => exact absurd h.1 (by simp [respQNum])
      | assessmentPage t => exact absurd h.1 (by simp [respQNum])
      | raised e => exact absurd h.1 (by simp [respQNum])

/-- Fixture: a total next-question oracle. -/
def genTotN : String → String → String := fun _ _ => "next q"

/-- Fixture: a total assessment oracle. -/
def genTotA : String → String → String := fun _ _ => "verdict"

/-- C1: `question_num` starts at 1 when a session is created by a
successful upload; every `process_answer` call that returns a question
page increments it by exactly one, both in the response and in the
store, and the new value never exceeds 5; and across a full five-answer
interview the five responses carry the question numbers 2,3,4,5 and then
the assessment page, so together with the upload response the displayed
sequence is exactly 1,2,3,4,5 — strictly increasing, never skipping or
repeating. -/
theorem C1_question_num_sequence :
    (∀ (st : ServerState) (rf : Option (String × String)) (fh sh : String)
        (ex gf : String → Except String String) (t : String) (n : Nat) (sid : String),
        (upload_resume st rf fh sh ex gf).2 = .questionPage t n sid →
        n = 1 ∧ ∃ s, (upload_resume st rf fh sh ex gf).1.sessions sid = some s ∧
          s.question_num = 1) ∧
    (∀ (st : ServerState) (a : Option String) (sid : String) (s : Session)
        (gN gA : String → String → Except String String) (rm : Bool)
        (st' : ServerState) (t : String) (n : Nat) (sid' : String),
        st.sessions sid = some s →
        process_answer st a (some sid) gN gA rm = (st', .questionPage t n sid') →
        n = s.question_num + 1 ∧ n ≤ 5 ∧
          ∃ s', st'.sessions sid = some s' ∧ s'.question_num = n) ∧
    (∀ (st : ServerState) (sid : String) (s : Session) (gN gA : String → String → String)
        (rm : Bool) (a1 a2 a3 a4 a5 : String),
        st.sessions sid = some s → s.question_num = 1 →
        (runAnswers st sid [a1, a2, a3, a4, a5] (okF gN) (okF gA) rm).2.map respQNum =
            [some 2, some 3, some 4, some 5, none] ∧
          (runAnswers st sid [a1, a2, a3, a4, a5] (okF gN) (okF gA) rm).2.map isAssessment =
            [false, false, false, false, true]) := by
  refine ⟨?_, ?_, ?_⟩
  · intro st rf fh sh ex gf t n sid h
    rcases rf with _ | ⟨fn, content⟩
    · exact absurd h (by simp [upload_resume])
    · by_cases hfn : fn = ""
      · exact absurd h (by simp [upload_resume, hfn])
      · rcases hex : ex content with e | rt
        · exact absurd h (by simp [upload_resume, hfn, hex])
        · rcases hgf : gf rt with e | q
          · exact absurd h (by simp [upload_resume, hfn, hex, hgf])
          · have hup : (upload_resume st (some (fn, content)) fh sh ex gf).2 =
                .questionPage q 1 sh := by
              simp [upload_resume, hfn, hex, hgf]
            rw [hup] at h
            injection h with ht hn hsid
            subst hn
            subst hsid
            refine ⟨rfl, ?_⟩
            refine ⟨{ resume_text := rt, chat_history := entryQ 1 q, question_num := 1,
                      filepath := UPLOAD_FOLDER ++ "/" ++ fh ++ ".pdf" }, ?_, rfl⟩
            simp [upload_resume, hfn, hex, hgf, setS_self]
  · intro st a sid s gN gA rm st' t n sid' hs h
    by_cases hlt : s.question_num < 5
    · rcases hg : gN s.resume_text (s.chat_history ++ entryA s.question_num (formAnswerText a))
        with e | t0
      · rw [step_next_err st a sid s gN gA rm e hs hlt hg] at h
        simp at h
      · rw [step_next_ok st a sid s gN gA rm t0 hs hlt hg] at h
        injection h with hst hresp
        injection hresp with ht hn hsid
        subst hst
        subst hn
        exact ⟨rfl, by omega, ⟨_, setS_self _ _ _, rfl⟩⟩
    · rcases hg : gA (s.chat_history ++ entryA s.question_num (formAnswerText a)) s.resume_text
        with e | t0
      · rw [step_final_err st a sid s gN gA rm e hs hlt hg] at h
        simp at h
      · rw [step_final_ok st a sid s gN gA rm t0 hs hlt hg] at h
        simp at h
  · intro st sid s gN gA rm a1 a2 a3 a4 a5 hs hq
    obtain ⟨ts, hts, hsess, hfiles, hmap⟩ :=
      runAnswers_ok gN gA rm [a1, a2, a3, a4] 1 st sid s hs hq (by simp)
    have hsnd :
        (process_answer (runAnswers st sid [a1, a2, a3, a4] (okF gN) (okF gA) rm).1
            (some a5) (some sid) (okF gN) (okF gA) rm).2 =
          .assessmentPage
            (gA (s.chat_history ++ renderAll (qaEntries 1 [a1, a2, a3, a4] ts)
                ++ entryA (1 + [a1, a2, a3, a4].length) (formAnswerText (some a5)))
              s.resume_text) :=
      step_final_ok_snd _ (some a5) sid _ (okF gN) (okF gA) rm _ hsess
        (by show ¬ 1 + [a1, a2, a3, a4].length < 5; simp) rfl
    rw [show ([a1, a2, a3, a4, a5] : List String) = [a1, a2, a3, a4] ++ [a5] from rfl,
      runAnswers_append st sid [a1, a2, a3, a4] [a5] (okF gN) (okF gA) rm,
      runAnswers_singleton]
    refine ⟨?_, ?_⟩
    · simp only [List.map_append, List.map_cons, List.map_nil]
      rw [hmap, hsnd]
      rfl
    · simp only [List.map_append, List.map_cons, List.map_nil]
      rw [hsnd, isAssessment_of_respQNum _ [2, 3, 4, 5] hmap]
      rfl

/-- Witness for C1: a concrete full run on the fixture session yields the
question numbers 2,3,4,5 and then the assessment. -/
theorem C1_question_num_sequence_witness :
    stW.sessions "sid" = some sessW ∧ sessW.question_num = 1 ∧
      (runAnswers stW "sid" ["a1", "a2", "a3", "a4", "a5"] (okF genTotN) (okF genTotA)
          true).2.map respQNum = [some 2, some 3, some 4, some 5, none] :=
  ⟨by decide, by decide,
   (C1_question_num_sequence.2.2 stW "sid" sessW genTotN genTotA true "a1" "a2" "a3" "a4"
       "a5" (by decide) (by decide)).1⟩

/-! ### Counting and alternation lemmas for C3 -/

theorem qaEntries_countQ :
    ∀ (as ts : List String) (k : Nat), ts.length = as.length →
      (qaEntries k as ts).countP isQ = as.length := by
  intro as
  induction as with
  | nil => intro ts k _; simp [qaEntries]
  | cons a as ih =>
    intro ts k h
    cases ts with
    | nil => simp at h
    | cons t ts =>
      have h' : ts.length = as.length := by simpa using h
      simp [qaEntries, List.countP_cons, isQ, ih ts (k + 1) h']

theorem qaEntries_countA :
    ∀ (as ts : List String) (k : Nat), ts.length = as.length →
      (qaEntries k as ts).countP isA = as.length := by
  intro as
  induction as with
  | nil => intro ts k _; simp [qaEntries]
  | cons a as ih =>
    intro ts k h
    cases ts with
    | nil => simp at h
    | cons t ts =>
      have h' : ts.length = as.length := by simpa using h
      simp [qaEntries, List.countP_cons, isA, ih ts (k + 1) h']

theorem qaEntries_altA :
    ∀ (as ts : List String) (k : Nat), ts.length = as.length →
      altA k (qaEntries k as ts) = true := by
  intro as
  induction as with
  | nil => intro ts k _; rfl
  | cons a as ih =>
    intro ts k h
    cases ts with
    | nil => simp at h
    | cons t ts =>
      have h' : ts.length = as.length := by simpa using h
      simp [qaEntries, altA, altQ, ih ts (k + 1) h']

/-- C3 (corrected): after N answers (N ≤ 4, so the session is still
active) on a freshly created session, the chat history is exactly the
rendering of the entry list Q1, A1, Q2, A2, ..., AN, Q(N+1): it holds
N+1 question entries — one more than the claim's N — and N answer
entries, strictly alternating starting with Q1. -/
theorem C3_history_shape (st : ServerState) (sid : String) (s : Session) (t1 : String)
    (gN gA : String → String → String) (rm : Bool) (answers : List String)
    (hs : st.sessions sid = some s) (hq : s.question_num = 1)
    (hch : s.chat_history = entryQ 1 t1) (hlen : answers.length ≤ 4) :
    ∃ ts : List String, ts.length = answers.length ∧
      (runAnswers st sid answers (okF gN) (okF gA) rm).1.sessions sid =
        some { resume_text := s.resume_text,
               chat_history := renderAll (.q 1 t1 :: qaEntries 1 answers ts),
               question_num := 1 + answers.length,
               filepath := s.filepath } ∧
      (QAEntry.q 1 t1 :: qaEntries 1 answers ts).countP isQ = answers.length + 1 ∧
      (QAEntry.q 1 t1 :: qaEntries 1 answers ts).countP isA = answers.length ∧
      altQ 1 (QAEntry.q 1 t1 :: qaEntries 1 answers ts) = true := by
  obtain ⟨ts, hts, hsess, hfiles, hmap⟩ :=
    runAnswers_ok gN gA rm answers 1 st sid s hs hq (by omega)
  refine ⟨ts, hts, ?_, ?_, ?_, ?_⟩
  · rw [hsess, hch]
    rfl
  · simp [List.countP_cons, isQ, qaEntries_countQ answers ts 1 hts]
  · simp [List.countP_cons, isA, qaEntries_countA answers ts 1 hts]
  · simp [altQ, qaEntries_altA answers ts 1 hts]

/-- Witness for C3 (corrected): two answers on the fixture session. -/
theorem C3_history_shape_witness :
    stW.sessions "sid" = some sessW ∧ sessW.question_num = 1 ∧
      sessW.chat_history = entryQ 1 "q1" ∧
      (∃ ts : List String, ts.length = (["a1", "a2"] : List String).length ∧
        (runAnswers stW "sid" ["a1", "a2"] (okF genTotN) (okF genTotA) true).1.sessions
            "sid" =
          some { resume_text := sessW.resume_text,
                 chat_history := renderAll (.q 1 "q1" :: qaEntries 1 ["a1", "a2"] ts),
                 question_num := 1 + (["a1", "a2"] : List String).length,
                 filepath := sessW.filepath } ∧
        (QAEntry.q 1 "q1" :: qaEntries 1 ["a1", "a2"] ts).countP isQ =
          (["a1", "a2"] : List String).length + 1 ∧
        (QAEntry.q 1 "q1" :: qaEntries 1 ["a1", "a2"] ts).countP isA =
          (["a1", "a2"] : List String).length ∧
        altQ 1 (QAEntry.q 1 "q1" :: qaEntries 1 ["a1", "a2"] ts) = true) :=
  ⟨by decide, by decide, by decide,
   C3_history_shape stW "sid" sessW "q1" genTotN genTotA true ["a1", "a2"]
     (by decide) (by decide) (by decide) (by decide)⟩

/-- Fixture: the chat history stored after a successful upload followed
by one answer, with concrete oracles. -/
def histC3 : String :=
  match (process_answer
      (upload_resume st0 (some ("r.pdf", "bytes")) "f" "sid" exOk gen1Ok).1
      (some "a1") (some "sid") genNOk genAOk true).1.sessions "sid" with
  | some s => s.chat_history
  | none => ""

/-- Counterexample to C3 as stated: after N = 1 answers the stored chat
history holds two `"Q"`-prefixed entries (`Q1` and the freshly generated
`Q2`), not exactly one, so the claimed count of exactly N question
entries fails already at N = 1. -/
theorem C3_counterexample :
    histC3 = "Q1: q1\nA1: a1\nQ2: next q\n" ∧
      countTaggedLines 'Q' histC3 = 2 ∧ countTaggedLines 'A' histC3 = 1 ∧
      ¬ countTaggedLines 'Q' histC3 = 1 :=
  ⟨by decide, by decide, by decide, by decide⟩

end InterviewBot
